import Mathlib

/-!
Verification of the MySQL MCP server dispatcher and resource lister
(src/mysql_mcp_server/server.py), as a shallow embedding.

The database driver (pymysql) and the protocol host are external
collaborators: they are modelled by oracles (DBBehavior, ListDB) giving
the outcome of connect, execute and fetchall, the cursor description
(column names) and the driver-reported rowcount.  Row values are modelled
after stringification (Python str), since str on arbitrary values is
external to the program.  Raised Python exceptions are modelled by
Except.error; the value returned to the protocol host by Except.ok.
Python str.strip and str.upper are modelled on the ASCII range, which is
the range the classifier compares against.
-/

namespace MysqlMcp

/-- The ASCII whitespace characters stripped by Python str.strip. -/
def pyIsSpace (c : Char) : Bool :=
  c = ' ' || c = '\t' || c = '\n' || c = '\x0d' || c = '\x0b' || c = '\x0c'

/-- Python str.strip: remove leading and trailing whitespace. -/
def pyStrip (s : String) : String :=
  String.mk (((s.data.dropWhile pyIsSpace).reverse.dropWhile pyIsSpace).reverse)

/-- Python str.upper on the ASCII range. -/
def pyUpper (s : String) : String :=
  String.mk (s.data.map Char.toUpper)

/-- Python str.startswith: the candidate is a character-wise starting
segment of the string. -/
def pyStartsWith (s pre : String) : Bool :=
  pre.data.isPrefixOf s.data

/-- The statement categories distinguished by the if/elif chain of
call_tool (server.py lines 106-221). -/
inductive QueryClass where
  | showTables
  | select
  | showDatabases
  | describe
  | showColumns
  | dml
  | ddl
  | other
deriving DecidableEq, Repr

/-- The classification performed by call_tool: query.strip().upper() is
matched by startswith in the exact order of the if/elif chain
(server.py lines 106, 109, 117, 138, 145, 166, 187, 193, 198). -/
def classify (query : String) : QueryClass :=
  let q := pyUpper (pyStrip query)
  if pyStartsWith q "SHOW TABLES" then .showTables
  else if pyStartsWith q "SELECT" then .select
  else if pyStartsWith q "SHOW DATABASES" then .showDatabases
  else if pyStartsWith q "DESCRIBE" || pyStartsWith q "DESC" then .describe
  else if pyStartsWith q "SHOW COLUMNS" then .showColumns
  else if ["INSERT", "UPDATE", "DELETE"].any (fun c => pyStartsWith q c) then .dml
  else if ["CREATE", "ALTER", "DROP", "TRUNCATE"].any (fun c => pyStartsWith q c) then .ddl
  else .other

/-- The classification table exactly as the specification states it:
categories in a fixed order, each with its prefixes, first match wins. -/
def specTable : List (List String × QueryClass) :=
  [ (["SHOW TABLES"], .showTables)
  , (["SELECT"], .select)
  , (["SHOW DATABASES"], .showDatabases)
  , (["DESCRIBE", "DESC"], .describe)
  , (["SHOW COLUMNS"], .showColumns)
  , (["INSERT", "UPDATE", "DELETE"], .dml)
  , (["CREATE", "ALTER", "DROP", "TRUNCATE"], .ddl) ]

/-- Classification following the words of the specification: trim,
upper-case, first entry of specTable one of whose prefixes matches wins,
generic fallback otherwise. -/
def specClassify (query : String) : QueryClass :=
  let q := pyUpper (pyStrip query)
  match specTable.find? (fun e => e.1.any (fun c => pyStartsWith q c)) with
  | some e => e.2
  | none => .other

/-- The separator rule of the tabular format (server.py line 129):
a run of dashes of length sum of header-name lengths plus 3 times
(column count minus 1). -/
def sepLine (fieldNames : List String) : String :=
  String.mk (List.replicate
    ((fieldNames.map String.length).sum + 3 * (fieldNames.length - 1)) '-')

/-- " | ".join, used for the header row and each data row. -/
def joinBar (cells : List String) : String :=
  String.intercalate " | " cells

/-- The tabular result format shared by the SELECT, DESCRIBE, SHOW
COLUMNS and fallback branches (server.py lines 126-135): header row,
separator rule, one line per data row, joined by newlines. -/
def formatTable (fieldNames : List String) (rows : List (List String)) : String :=
  String.intercalate "\n" (joinBar fieldNames :: sepLine fieldNames :: rows.map joinBar)

/-- The environment variables read by get_db_config. -/
structure Env where
  mysqlHost : Option String
  mysqlPort : Option String
  mysqlUser : Option String
  mysqlPassword : Option String
  mysqlDatabase : Option String
deriving DecidableEq, Repr

/-- The configuration record built by get_db_config. -/
structure Config where
  host : String
  port : Int
  user : String
  password : String
  database : String
deriving DecidableEq, Repr

/-- A raised Python exception (here always ValueError), carrying str(e). -/
inductive PyError where
  | valueError (msg : String)
deriving DecidableEq, Repr

/-- Python truthiness of an optional string: None and the empty string
are falsy. -/
def truthyStr : Option String → Bool
  | none => false
  | some s => !(s == "")

/-- Decimal value of a digit list, accumulator style. -/
def digitsValAux : List Char → Nat → Nat
  | [], acc => acc
  | c :: cs, acc => digitsValAux cs (acc * 10 + (c.toNat - 48))

/-- Python int() on a string, modelled for the plain decimal literals an
environment variable port takes: optional surrounding whitespace, an
optional sign, then at least one decimal digit; anything else raises
ValueError (None result). -/
def pyInt? (s : String) : Option Int :=
  match (pyStrip s).data with
  | '-' :: ds =>
    if ds ≠ [] && ds.all Char.isDigit then some (-(digitsValAux ds 0 : Int))
    else none
  | '+' :: ds =>
    if ds ≠ [] && ds.all Char.isDigit then some (digitsValAux ds 0)
    else none
  | ds =>
    if ds ≠ [] && ds.all Char.isDigit then some (digitsValAux ds 0)
    else none

/-- get_db_config (server.py lines 20-35): defaults for host and port,
int conversion of the port, then the all([user, password, database])
check; a missing required field raises ValueError. -/
def get_db_config (env : Env) : Except PyError Config :=
  match pyInt? (env.mysqlPort.getD "3306") with
  | none => .error (.valueError "invalid literal for int()")
  | some port =>
    if truthyStr env.mysqlUser && truthyStr env.mysqlPassword &&
        truthyStr env.mysqlDatabase then
      .ok { host := env.mysqlHost.getD "localhost"
          , port := port
          , user := (env.mysqlUser.getD "")
          , password := (env.mysqlPassword.getD "")
          , database := (env.mysqlDatabase.getD "") }
    else
      .error (.valueError "Missing required database configuration")

/-- The configuration is loadable: get_db_config succeeds. -/
def validConfig (env : Env) : Prop :=
  ∃ c, get_db_config env = .ok c

/-- Database-visible operations performed by call_tool, in order of
occurrence; the trace is part of the modelled result so that commit
placement is observable. -/
inductive Event where
  | connect
  | execute
  | fetch
  | commit
deriving DecidableEq, Repr

/-- Oracle for the driver behaviour seen by one call_tool invocation:
outcome of pymysql.connect, cursor.execute, cursor.fetchall, the column
names of cursor.description, and cursor.rowcount. -/
structure DBBehavior where
  connect : Except String Unit
  execute : Except String Unit
  fetchall : Except String (List (List String))
  description : List String
  rowcount : Int
deriving Repr

/-- The outcome call_tool hands to the protocol host: the text of the
single TextContent block, plus the trace of database operations that
completed before the return. -/
structure CallResult where
  text : String
  events : List Event
deriving DecidableEq, Repr

/-- The in-band error text of the top-level except block
(server.py line 225). -/
def errText (msg : String) : String :=
  "Error executing query: " ++ msg

/-- Python truthiness of the query argument: arguments.get returns None
when absent; None and the empty string are falsy. -/
def queryFalsy : Option String → Bool
  | none => true
  | some s => s == ""

/-- call_tool (server.py lines 86-225).  Order of checks follows the
source: configuration first, then the tool-name check, then the query
check, then the guarded connect/execute/dispatch, whose exceptions are
converted into an in-band error TextContent. -/
def call_tool (env : Env) (name : String) (query? : Option String)
    (db : DBBehavior) : Except PyError CallResult :=
  match get_db_config env with
  | .error e => .error e
  | .ok config =>
    if name ≠ "execute_sql" then
      .error (.valueError ("Unknown tool: " ++ name))
    else if queryFalsy query? then
      .error (.valueError "Query is required")
    else
      let query := query?.getD ""
      match db.connect with
      | .error msg => .ok ⟨errText msg, []⟩
      | .ok _ =>
        match db.execute with
        | .error msg => .ok ⟨errText msg, [.connect]⟩
        | .ok _ =>
          match classify query with
          | .showTables =>
            match db.fetchall with
            | .error msg => .ok ⟨errText msg, [.connect, .execute]⟩
            | .ok tables =>
              .ok ⟨String.intercalate "\n"
                    ((config.database ++ " tables:") ::
                      tables.map (fun row => row.headD "")),
                  [.connect, .execute, .fetch]⟩
          | .select =>
            match db.fetchall with
            | .error msg => .ok ⟨errText msg, [.connect, .execute]⟩
            | .ok rows =>
              if rows.isEmpty then
                .ok ⟨"Query executed successfully. No results returned.",
                    [.connect, .execute, .fetch]⟩
              else
                .ok ⟨formatTable db.description rows,
                    [.connect, .execute, .fetch]⟩
          | .showDatabases =>
            match db.fetchall with
            | .error msg => .ok ⟨errText msg, [.connect, .execute]⟩
            | .ok databases =>
              .ok ⟨String.intercalate "\n"
                    ("Available databases:" ::
                      databases.map (fun row => row.headD "")),
                  [.connect, .execute, .fetch]⟩
          | .describe =>
            match db.fetchall with
            | .error msg => .ok ⟨errText msg, [.connect, .execute]⟩
            | .ok columns =>
              if columns.isEmpty then
                .ok ⟨"No columns found or table doesn\x27t exist.",
                    [.connect, .execute, .fetch]⟩
              else
                .ok ⟨formatTable db.description columns,
                    [.connect, .execute, .fetch]⟩
          | .showColumns =>
            match db.fetchall with
            | .error msg => .ok ⟨errText msg, [.connect, .execute]⟩
            | .ok columns =>
              if columns.isEmpty then
                .ok ⟨"No columns found or table doesn\x27t exist.",
                    [.connect, .execute, .fetch]⟩
              else
                .ok ⟨formatTable db.description columns,
                    [.connect, .execute, .fetch]⟩
          | .dml =>
            .ok ⟨"Query executed successfully. Affected rows: " ++
                  toString db.rowcount,
                [.connect, .execute, .commit]⟩
          | .ddl =>
            .ok ⟨"DDL statement executed successfully.",
                [.connect, .execute, .commit]⟩
          | .other =>
            match db.fetchall with
            | .error _ =>
              .ok ⟨"Query executed successfully.",
                  [.connect, .execute, .commit]⟩
            | .ok rows =>
              if rows.isEmpty then
                .ok ⟨"Query executed successfully. No results returned.",
                    [.connect, .execute, .fetch]⟩
              else
                .ok ⟨formatTable db.description rows,
                    [.connect, .execute, .fetch]⟩

/-- A resource descriptor as built by list_resources. -/
structure Resource where
  uri : String
  name : String
  mimeType : String
  description : String
deriving DecidableEq, Repr

/-- Oracle for the driver behaviour seen by one list_resources request:
outcome of pymysql.connect, and of executing SHOW TABLES and fetching
the table names (first column of each row). -/
structure ListDB where
  connect : Except String Unit
  showTables : Except String (List String)
deriving Repr

/-- list_resources (server.py lines 58-83).  get_db_config is called
outside the try block, so a configuration error propagates; everything
inside the try block is caught and turned into the empty list. -/
def list_resources (env : Env) (db : ListDB) :
    Except PyError (List Resource) :=
  match get_db_config env with
  | .error e => .error e
  | .ok _ =>
    match db.connect with
    | .error _ => .ok []
    | .ok _ =>
      match db.showTables with
      | .error _ => .ok []
      | .ok tables =>
        .ok (tables.map (fun t =>
          { uri := "mysql://" ++ t ++ "/data"
          , name := "Table: " ++ t
          , mimeType := "text/plain"
          , description := "Data in table: " ++ t }))

/-- Does the call outcome hand a TextContent to the host (as opposed to
raising)? -/
def isOkResult : Except PyError CallResult → Bool
  | .ok _ => true
  | .error _ => false

/-- A concrete environment with all required variables set. -/
def envW : Env :=
  { mysqlHost := none, mysqlPort := none, mysqlUser := some "u"
  , mysqlPassword := some "p", mysqlDatabase := some "shop" }

/-- The configuration get_db_config builds from envW. -/
def cW : Config :=
  { host := "localhost", port := 3306, user := "u", password := "p"
  , database := "shop" }

/-- A concrete environment whose user variable is unset. -/
def envNoUser : Env :=
  { mysqlHost := none, mysqlPort := none, mysqlUser := none
  , mysqlPassword := some "p", mysqlDatabase := some "shop" }

/-- A driver oracle where everything succeeds and the result set is
empty. -/
def dbPlain : DBBehavior :=
  { connect := .ok (), execute := .ok (), fetchall := .ok []
  , description := [], rowcount := 2 }

/-- A driver oracle for the two-row (id, name) example result set. -/
def dbSelect2 : DBBehavior :=
  { connect := .ok (), execute := .ok ()
  , fetchall := .ok [["1", "a"], ["2", "b"]]
  , description := ["id", "name"], rowcount := -1 }

/-- A driver oracle whose connect raises. -/
def dbConnFail : DBBehavior :=
  { connect := .error "boom", execute := .ok (), fetchall := .ok []
  , description := [], rowcount := 0 }

/-- A driver oracle whose fetchall raises. -/
def dbFetchFail : DBBehavior :=
  { connect := .ok (), execute := .ok (), fetchall := .error "boom"
  , description := [], rowcount := 0 }

/-- A lister oracle whose connect raises. -/
def listDbFail : ListDB :=
  { connect := .error "down", showTables := .ok [] }

/-- A lister oracle where everything succeeds with no tables. -/
def listDbOk : ListDB :=
  { connect := .ok (), showTables := .ok [] }

/-- C1: every query is classified purely lexically, by trimming,
upper-casing, and first-match-wins prefix match against the fixed
ordered table SHOW TABLES, SELECT, SHOW DATABASES, DESCRIBE/DESC,
SHOW COLUMNS, INSERT/UPDATE/DELETE, CREATE/ALTER/DROP/TRUNCATE, with
the generic fallback last: the classification the if/elif chain of
call_tool performs coincides with that table lookup on every query
string, and, being a function of the query text alone, depends only on
the prefix match and not on statement semantics. -/
theorem classify_eq_specClassify (q : String) : classify q = specClassify q := by
  unfold classify specClassify
  set s := pyUpper (pyStrip q) with hs
  simp only [specTable, List.find?_cons, List.any_cons, List.any_nil, Bool.or_false]
  cases h1 : pyStartsWith s "SHOW TABLES" <;> simp only [h1]
  rotate_left
  · rfl
  cases h2 : pyStartsWith s "SELECT" <;> simp only [h2]
  rotate_left
  · rfl
  cases h3 : pyStartsWith s "SHOW DATABASES" <;> simp only [h3]
  rotate_left
  · rfl
  cases h4 : pyStartsWith s "DESCRIBE" || pyStartsWith s "DESC" <;> simp only [h4]
  rotate_left
  · rfl
  cases h5 : pyStartsWith s "SHOW COLUMNS" <;> simp only [h5]
  rotate_left
  · rfl
  cases h6 : pyStartsWith s "INSERT" || (pyStartsWith s "UPDATE" || pyStartsWith s "DELETE") <;>
    simp only [h6]
  rotate_left
  · rfl
  cases h7 : pyStartsWith s "CREATE" ||
      (pyStartsWith s "ALTER" || (pyStartsWith s "DROP" || pyStartsWith s "TRUNCATE")) <;>
    simp only [h7]
  rotate_left
  · rfl
  rfl

/-- After validation passes, every driver outcome yields a TextContent:
the try block catches all modelled exceptions. -/
theorem call_tool_post_validation_ok (env : Env) (c : Config)
    (hc : get_db_config env = .ok c) (q : String) (hq : q ≠ "")
    (db : DBBehavior) :
    isOkResult (call_tool env "execute_sql" (some q) db) = true := by
  obtain ⟨conn, exec, fetch, desc, rc⟩ := db
  cases conn with
  | error m => simp [call_tool, hc, queryFalsy, hq, isOkResult]
  | ok u =>
    cases u
    cases exec with
    | error m => simp [call_tool, hc, queryFalsy, hq, isOkResult]
    | ok u' =>
      cases u'
      cases hcl : classify q <;>
        cases fetch with
        | error m => simp [call_tool, hc, queryFalsy, hq, isOkResult, hcl]
        | ok rows =>
          cases rows <;>
            simp [call_tool, hc, queryFalsy, hq, isOkResult, hcl]

/-- C5: with loadable configuration, an execute_sql invocation whose
query argument is absent (None) or the empty string raises the
ValueError reading Query is required, which propagates to the caller as
a protocol-level error; no TextContent is produced. -/
theorem empty_query_raises (env : Env) (c : Config)
    (hc : get_db_config env = .ok c) (db : DBBehavior) :
    call_tool env "execute_sql" none db
        = .error (.valueError "Query is required")
    ∧ call_tool env "execute_sql" (some "") db
        = .error (.valueError "Query is required") := by
  constructor <;> simp [call_tool, hc, queryFalsy]

/-- C5 witness at the concrete environment envW. -/
theorem empty_query_raises_witness :
    call_tool envW "execute_sql" none dbPlain
        = .error (.valueError "Query is required")
    ∧ call_tool envW "execute_sql" (some "") dbPlain
        = .error (.valueError "Query is required") :=
  empty_query_raises envW cW rfl dbPlain

/-- C10: with loadable configuration, a tool invocation failing
validation raises before the driver oracle is consulted, so database
state is unchanged: for an unknown tool name the result is the
unknown-tool ValueError whatever the query argument (so the unknown-tool
check precedes the query check), and for execute_sql with a falsy query
it is the query ValueError; both conclusions hold for every driver
behaviour db, which is never examined. -/
theorem validation_before_db (env : Env) (c : Config)
    (hc : get_db_config env = .ok c) (name : String) (query? : Option String)
    (db : DBBehavior) :
    (name ≠ "execute_sql" →
      call_tool env name query? db
        = .error (.valueError ("Unknown tool: " ++ name)))
    ∧ (queryFalsy query? = true → name = "execute_sql" →
      call_tool env name query? db
        = .error (.valueError "Query is required")) := by
  constructor
  · intro hn
    simp [call_tool, hc, hn]
  · intro hfal hn
    subst hn
    simp [call_tool, hc, hfal]

/-- C10 witness: an unknown tool called with an absent query fails with
the unknown-tool error, at concrete inputs. -/
theorem validation_before_db_witness :
    call_tool envW "other_tool" none dbConnFail
      = .error (.valueError "Unknown tool: other_tool") :=
  (validation_before_db envW cW rfl "other_tool" none dbConnFail).1 (by decide)

/-- C6: an INSERT/UPDATE/DELETE query that connects and executes without
error commits after execution and before the response (event trace
connect, execute, commit) and reports exactly the driver rowcount in
the text Query executed successfully. Affected rows: n. -/
theorem dml_commits_and_reports (env : Env) (c : Config)
    (hc : get_db_config env = .ok c) (q : String) (db : DBBehavior)
    (hcl : classify q = .dml)
    (hconn : db.connect = .ok ()) (hexec : db.execute = .ok ()) :
    call_tool env "execute_sql" (some q) db
      = .ok ⟨"Query executed successfully. Affected rows: "
              ++ toString db.rowcount,
            [.connect, .execute, .commit]⟩ := by
  have hq : q ≠ "" := by rintro rfl; exact absurd hcl (by decide)
  simp [call_tool, hc, queryFalsy, hq, hconn, hexec, hcl]

/-- C6 witness at a concrete UPDATE with rowcount 2. -/
theorem dml_commits_and_reports_witness :
    call_tool envW "execute_sql" (some "UPDATE t SET a = 1") dbPlain
      = .ok ⟨"Query executed successfully. Affected rows: 2",
            [.connect, .execute, .commit]⟩ := by
  have h := dml_commits_and_reports envW cW rfl "UPDATE t SET a = 1" dbPlain
    (by decide) rfl rfl
  rw [h]
  rfl

/-- C3: when connection, execution, or a fetch reached by the top-level
dispatch raises (the fetch case concerns the branches that fetch
outside the fallback inner try, i.e. every class except
INSERT/UPDATE/DELETE, DDL and the generic fallback), the exception is
caught and the invocation returns a normal TextContent whose text is
exactly Error executing query: followed by the message; nothing
propagates to the host. -/
theorem exec_errors_reported_inband (env : Env) (c : Config)
    (hc : get_db_config env = .ok c) (q : String) (hq : q ≠ "")
    (db : DBBehavior) (m : String)
    (h : db.connect = .error m
      ∨ (db.connect = .ok () ∧ db.execute = .error m)
      ∨ (db.connect = .ok () ∧ db.execute = .ok ()
          ∧ db.fetchall = .error m
          ∧ classify q ≠ .dml ∧ classify q ≠ .ddl ∧ classify q ≠ .other)) :
    (call_tool env "execute_sql" (some q) db).map CallResult.text
      = .ok ("Error executing query: " ++ m) := by
  rcases h with hconn | ⟨hconn, hexec⟩ | ⟨hconn, hexec, hfetch, hnd, hnl, hno⟩
  · simp [call_tool, hc, queryFalsy, hq, hconn, errText, Except.map]
  · simp [call_tool, hc, queryFalsy, hq, hconn, hexec, errText, Except.map]
  · cases hcl : classify q
    case dml => exact absurd hcl hnd
    case ddl => exact absurd hcl hnl
    case other => exact absurd hcl hno
    all_goals
      simp [call_tool, hc, queryFalsy, hq, hconn, hexec, hfetch, hcl,
        errText, Except.map]

/-- C3 witness: a failing connection at a concrete SELECT query yields
the in-band error text. -/
theorem exec_errors_reported_inband_witness :
    (call_tool envW "execute_sql" (some "SELECT 1") dbConnFail).map
        CallResult.text
      = .ok ("Error executing query: " ++ "boom") :=
  exec_errors_reported_inband envW cW rfl "SELECT 1" (by decide) dbConnFail
    "boom" (Or.inl rfl)

/-- C9: a non-empty query consisting only of whitespace is not rejected
by validation: with loadable configuration the invocation never raises
the query ValueError, always hands a TextContent to the host, and in
particular a connection failure is reported in-band as an error text
block. -/
theorem whitespace_query_not_rejected (env : Env) (c : Config)
    (hc : get_db_config env = .ok c) (q : String) (hq : q ≠ "")
    (hws : q.data.all pyIsSpace = true) (db : DBBehavior) :
    call_tool env "execute_sql" (some q) db
        ≠ .error (.valueError "Query is required")
    ∧ isOkResult (call_tool env "execute_sql" (some q) db) = true
    ∧ (∀ m, db.connect = .error m →
        call_tool env "execute_sql" (some q) db
          = .ok ⟨"Error executing query: " ++ m, []⟩) := by
  refine ⟨?_, call_tool_post_validation_ok env c hc q hq db, ?_⟩
  · intro hcontra
    have hok := call_tool_post_validation_ok env c hc q hq db
    rw [hcontra] at hok
    simp [isOkResult] at hok
  · intro m hconn
    simp [call_tool, hc, queryFalsy, hq, hconn, errText]

/-- C9 witness at the single-space query. -/
theorem whitespace_query_not_rejected_witness :
    call_tool envW "execute_sql" (some " ") dbConnFail
        ≠ .error (.valueError "Query is required")
    ∧ isOkResult (call_tool envW "execute_sql" (some " ") dbConnFail) = true
    ∧ call_tool envW "execute_sql" (some " ") dbConnFail
        = .ok ⟨"Error executing query: " ++ "boom", []⟩ := by
  have h := whitespace_query_not_rejected envW cW rfl " " (by decide)
    (by decide) dbConnFail
  exact ⟨h.1, h.2.1, h.2.2 "boom" rfl⟩

/-- C2 counterexample: on columns (id, name) with rows (1, a), (2, b)
the code renders a 9-dash separator, so the text block differs from the
10-dash literal quoted by the claim. -/
theorem select_example_nine_dashes :
    (call_tool envW "execute_sql" (some "SELECT id, name FROM users")
        dbSelect2).map CallResult.text
      = .ok "id | name\n---------\n1 | a\n2 | b"
    ∧ ("id | name\n---------\n1 | a\n2 | b" : String)
        ≠ "id | name\n----------\n1 | a\n2 | b" := by
  constructor
  · rfl
  · decide

/-- C2 as amended: for every SELECT query whose fetch succeeds with a
non-empty result set, the text block is the column names joined by
pipe-space separators, then a separator line of exactly (sum of
header-name lengths + 3 times (column count minus 1)) dashes, then one
line per row with the (stringified) values joined the same way; the
number of data lines equals the row count.  The concrete (id, name)
example yields the 9-dash rendering, not the 10-dash literal of the
claim. -/
theorem select_nonempty_table_format (env : Env) (c : Config)
    (hc : get_db_config env = .ok c) (q : String) (db : DBBehavior)
    (hcl : classify q = .select)
    (hconn : db.connect = .ok ()) (hexec : db.execute = .ok ())
    (rows : List (List String)) (hfetch : db.fetchall = .ok rows)
    (hne : rows ≠ []) :
    call_tool env "execute_sql" (some q) db
      = .ok ⟨String.intercalate "\n"
              (joinBar db.description :: sepLine db.description ::
                rows.map joinBar),
            [.connect, .execute, .fetch]⟩
    ∧ (rows.map joinBar).length = rows.length
    ∧ (sepLine db.description).data
        = List.replicate ((db.description.map String.length).sum
            + 3 * (db.description.length - 1)) '-' := by
  have hq : q ≠ "" := by rintro rfl; exact absurd hcl (by decide)
  refine ⟨?_, List.length_map rows joinBar, rfl⟩
  cases rows with
  | nil => exact absurd rfl hne
  | cons r rs =>
    simp [call_tool, hc, queryFalsy, hq, hconn, hexec, hcl, hfetch,
      formatTable]

/-- C2 witness: the concrete end-to-end example, with the 9-dash
separator the code produces. -/
theorem select_nonempty_table_format_witness :
    call_tool envW "execute_sql" (some "SELECT id, name FROM users")
        dbSelect2
      = .ok ⟨"id | name\n---------\n1 | a\n2 | b",
            [.connect, .execute, .fetch]⟩ := by
  have h := (select_nonempty_table_format envW cW rfl
    "SELECT id, name FROM users" dbSelect2 (by decide) rfl rfl
    [["1", "a"], ["2", "b"]] rfl (by decide)).1
  rw [h]
  rfl

/-- C7: a query in the generic fallback class whose connect and execute
succeed behaves by runtime result-set detection: a successful fetch
with rows renders the same table format as the SELECT branch
(formatTable over the cursor description); a successful fetch with zero
rows yields the no-results sentence; a raising fetch falls back to
commit and the bare success sentence. -/
theorem fallback_branch_behaviour (env : Env) (c : Config)
    (hc : get_db_config env = .ok c) (q : String) (hq : q ≠ "")
    (db : DBBehavior) (hcl : classify q = .other)
    (hconn : db.connect = .ok ()) (hexec : db.execute = .ok ()) :
    (∀ rows, db.fetchall = .ok rows → rows ≠ [] →
      call_tool env "execute_sql" (some q) db
        = .ok ⟨formatTable db.description rows,
              [.connect, .execute, .fetch]⟩)
    ∧ (db.fetchall = .ok [] →
      call_tool env "execute_sql" (some q) db
        = .ok ⟨"Query executed successfully. No results returned.",
              [.connect, .execute, .fetch]⟩)
    ∧ (∀ m, db.fetchall = .error m →
      call_tool env "execute_sql" (some q) db
        = .ok ⟨"Query executed successfully.",
              [.connect, .execute, .commit]⟩) := by
  refine ⟨?_, ?_, ?_⟩
  · intro rows hfetch hne
    cases rows with
    | nil => exact absurd rfl hne
    | cons r rs =>
      simp [call_tool, hc, queryFalsy, hq, hconn, hexec, hcl, hfetch]
  · intro hfetch
    simp [call_tool, hc, queryFalsy, hq, hconn, hexec, hcl, hfetch]
  · intro m hfetch
    simp [call_tool, hc, queryFalsy, hq, hconn, hexec, hcl, hfetch]

/-- C7 witness: a concrete fallback query (EXPLAIN) whose fetch raises
commits and reports bare success. -/
theorem fallback_branch_behaviour_witness :
    call_tool envW "execute_sql" (some "EXPLAIN SELECT 1") dbFetchFail
      = .ok ⟨"Query executed successfully.",
            [.connect, .execute, .commit]⟩ :=
  (fallback_branch_behaviour envW cW rfl "EXPLAIN SELECT 1" (by decide)
    dbFetchFail (by decide) rfl rfl).2.2 "boom" rfl

/-- C8: a SELECT, DESCRIBE/DESC or SHOW COLUMNS query that executes
without error and fetches zero rows yields the fixed single-sentence
response of its branch, never an empty table: the two sentences contain
no newline, so no header line or separator rule is emitted. -/
theorem zero_rows_fixed_sentence (env : Env) (c : Config)
    (hc : get_db_config env = .ok c) (q : String) (db : DBBehavior)
    (hconn : db.connect = .ok ()) (hexec : db.execute = .ok ())
    (hfetch : db.fetchall = .ok []) :
    (classify q = .select →
      call_tool env "execute_sql" (some q) db
        = .ok ⟨"Query executed successfully. No results returned.",
              [.connect, .execute, .fetch]⟩)
    ∧ (classify q = .describe ∨ classify q = .showColumns →
      call_tool env "execute_sql" (some q) db
        = .ok ⟨"No columns found or table doesn\x27t exist.",
              [.connect, .execute, .fetch]⟩)
    ∧ ("Query executed successfully. No results returned.").data.all
        (fun ch => ch != '\n') = true
    ∧ ("No columns found or table doesn\x27t exist.").data.all
        (fun ch => ch != '\n') = true := by
  refine ⟨?_, ?_, by decide, by decide⟩
  · intro hcl
    have hq : q ≠ "" := by rintro rfl; exact absurd hcl (by decide)
    simp [call_tool, hc, queryFalsy, hq, hconn, hexec, hcl, hfetch]
  · intro hcl
    rcases hcl with hcl | hcl <;>
    · have hq : q ≠ "" := by rintro rfl; exact absurd hcl (by decide)
      simp [call_tool, hc, queryFalsy, hq, hconn, hexec, hcl, hfetch]

/-- C8 witness: a concrete DESCRIBE over a missing table yields the
fixed sentence. -/
theorem zero_rows_fixed_sentence_witness :
    call_tool envW "execute_sql" (some "DESCRIBE missing") dbPlain
      = .ok ⟨"No columns found or table doesn\x27t exist.",
            [.connect, .execute, .fetch]⟩ :=
  (zero_rows_fixed_sentence envW cW rfl "DESCRIBE missing" dbPlain
    rfl rfl rfl).2.1 (Or.inl (by decide))

/-- C4 counterexample: with the user variable unset, the resource
lister raises the configuration ValueError instead of returning the
empty sequence, because get_db_config runs outside the guarded block;
the claim that configuration failures also yield an empty sequence is
false. -/
theorem list_resources_config_error_propagates :
    list_resources envNoUser listDbOk
      = .error (.valueError "Missing required database configuration")
    ∧ list_resources envNoUser listDbOk ≠ .ok [] := by
  constructor
  · rfl
  · intro h
    rw [show list_resources envNoUser listDbOk
        = .error (.valueError "Missing required database configuration")
      from rfl] at h
    exact Except.noConfusion h

/-- C4 as amended: with loadable configuration, a connection or query
failure makes the resource lister return the empty sequence without
propagating an error to the host; a configuration error, by contrast,
is raised before the guarded block and propagates. -/
theorem list_resources_db_failures_empty (env : Env) (c : Config)
    (hc : get_db_config env = .ok c) (db : ListDB)
    (h : (∃ m, db.connect = .error m)
      ∨ (db.connect = .ok () ∧ ∃ m, db.showTables = .error m)) :
    list_resources env db = .ok [] := by
  rcases h with ⟨m, hconn⟩ | ⟨hconn, m, hshow⟩
  · simp [list_resources, hc, hconn]
  · simp [list_resources, hc, hconn, hshow]

/-- C4 witness: a failing connection at the concrete valid environment
yields the empty listing. -/
theorem list_resources_db_failures_empty_witness :
    list_resources envW listDbFail = .ok [] :=
  list_resources_db_failures_empty envW cW rfl listDbFail
    (Or.inl ⟨"down", rfl⟩)

end MysqlMcp
